import Mathlib

/-!
Verification development for the otr language toolchain (compiler +
interpreter).  The Rust sources are shallowly embedded: pure functions become
Lean functions, interior mutability through shared struct cells
(Rc<RefCell<Option<Struct>>>) becomes explicit heap passing, and the
interpreter loop and other possibly diverging recursions take an explicit
fuel argument, evaluating to `none` when fuel runs out or when the Rust
source would panic.  Machine integers (i64/usize) are modelled as Int/Nat
with explicit two's-complement wrapping where the source can wrap.
-/

namespace Otr

/-- Errors raised at runtime (runtime.rs, struct RuntimeError). -/
structure RuntimeError where
  message : String
deriving DecidableEq, Repr

/-- Errors raised during compilation (compiler.rs, struct CompilerError). -/
structure CompilerError where
  message : String
deriving DecidableEq, Repr

/-- A module-qualified name: pair of module id and member id
(runtime.rs, struct ModuleAddress). -/
structure ModuleAddress where
  moduleId : String
  identifier : String
deriving DecidableEq, Repr

/-- Display form module_id::member_id (runtime.rs, impl Display for ModuleAddress). -/
def ModuleAddress.display (a : ModuleAddress) : String :=
  a.moduleId ++ "::" ++ a.identifier

/-- Two's-complement wrap of an integer into the i64 range.
Models release-mode wrapping arithmetic on i64; no claim in this
development depends on overflow behaviour. -/
def wrap64 (i : Int) : Int :=
  (i + 2 ^ 63) % 2 ^ 64 - 2 ^ 63

/-- The least i64 value. -/
def i64Min : Int := -(2 ^ 63)

/-- Rust cast i64 -> usize (wraps modulo 2^64). -/
def usizeOfI64 (i : Int) : Nat :=
  (i % (2 ^ 64 : Int)).toNat

/-- Rust cast usize -> i64 (wraps into the signed range). -/
def i64OfUsize (n : Nat) : Int :=
  wrap64 (n : Int)

/-!
f64 values are carried as their 64-bit pattern.  IEEE comparison semantics
(NaN compares unequal to everything, positive and negative zero compare
equal) are modelled exactly; float arithmetic itself is outside the scope of
this embedding and no claim depends on a float arithmetic result, only on
type tags, so arithmetic on floats is modelled by an unspecified total
function on bit patterns.
-/

/-- Bit pattern of an f64 NaN: exponent all ones, nonzero mantissa. -/
def isNaNBits (b : Nat) : Bool :=
  ((b >>> 52) &&& 0x7FF) = 0x7FF && (b &&& 0xFFFFFFFFFFFFF) ≠ 0

/-- Order key for finite f64 bit patterns: monotone in the represented value,
identifying positive and negative zero. -/
def floatOrderKey (b : Nat) : Nat :=
  if b < 2 ^ 63 then b + 2 ^ 63 else 2 ^ 64 - b

/-- IEEE f64 equality on bit patterns. -/
def floatEqBits (a b : Nat) : Bool :=
  if isNaNBits a || isNaNBits b then false
  else floatOrderKey a = floatOrderKey b

/-- IEEE f64 strict greater-than on bit patterns. -/
def floatGtBits (a b : Nat) : Bool :=
  if isNaNBits a || isNaNBits b then false
  else floatOrderKey b < floatOrderKey a

/-- Placeholder for f64 arithmetic: returns the canonical quiet NaN pattern.
Unused by every claim; present only so the Float branches of the arithmetic
expressions are representable. -/
def floatArith (_a _b : Nat) : Nat := 0x7FF8000000000000

/-- Runtime values (runtime.rs, enum Value).  Struct owns a heap cell,
StructRef weakly observes one; the heap itself is threaded explicitly. -/
inductive Value where
  | null
  | integer (i : Int)
  | float (bits : Nat)
  | str (s : String)
  | char (c : Char)
  | bool (b : Bool)
  | array (elems : List Value)
  | struct (cellId : Nat)
  | structRef (cellId : Nat)

/-- A struct field: visibility flag plus value (runtime.rs, struct Member). -/
structure Member where
  isPublic : Bool
  value : Value

/-- A struct instance: prototype address plus member map
(runtime.rs, struct Struct with MemberMap).  The HashMap is modelled as an
association list with distinct keys (MemberMap.insert_member rejects
duplicates). -/
structure StructObj where
  structId : ModuleAddress
  members : List (String × Member)

/-- State of one shared struct cell.  `cell none` is a moved-out cell
(RefCell holding None); `dropped` models a cell whose strong owner was
dropped, so weak upgrades fail. -/
inductive CellState where
  | dropped
  | cell (content : Option StructObj)

/-- The heap of struct cells; a Value.struct or Value.structRef names a cell
by its index.  Allocation appends. -/
abbrev Heap := List CellState

/-- Weak upgrade: some content when the cell is still alive, none when it was
dropped (or is absent, which cannot arise from the modelled operations). -/
def Heap.upgrade (h : Heap) (c : Nat) : Option (Option StructObj) :=
  match List.get? h c with
  | some (.cell content) => some content
  | _ => none

/-- Discriminant comparison used by the catch-all arm of PartialEq for Value. -/
def Value.discrim : Value → Nat
  | .null => 0
  | .integer _ => 1
  | .float _ => 2
  | .str _ => 3
  | .char _ => 4
  | .bool _ => 5
  | .array _ => 6
  | .struct _ => 7
  | .structRef _ => 8

/-- Type-id string of a value (runtime.rs, Value::get_type_id). -/
def Value.getTypeId (h : Heap) : Value → String
  | .null => "Null"
  | .integer _ => "Integer"
  | .float _ => "Float"
  | .str _ => "String"
  | .char _ => "Char"
  | .bool _ => "Bool"
  | .array _ => "Array"
  | .struct c =>
    match List.get? h c with
    | some (.cell (some obj)) => obj.structId.display
    | _ => "Moved"
  | .structRef c =>
    match h.upgrade c with
    | some (some obj) => obj.structId.display
    | some none => "Moved"
    | none => "Dropped"

/-- First-match association lookup (models HashMap::get on the distinct-key
member list). -/
def assocGet (k : String) : List (String × Member) → Option Member
  | [] => none
  | (k1, m) :: rest => if k1 = k then some m else assocGet k rest

mutual

/-- Structural equality of values (runtime.rs, impl PartialEq for Value),
relative to a heap.  Rc and RefCell compare through to their contents, and a
weak reference is compared by upgrading it, so this comparison can recurse
through heap cells and diverge on cyclic structures; fuel exhaustion is
`none`. -/
def valueEqF : Nat → Heap → Value → Value → Option Bool
  | 0, _, _, _ => none
  | fuel + 1, h, v, w =>
    match v, w with
    | .integer a, .integer b => some (a = b)
    | .float a, .float b => some (floatEqBits a b)
    | .str a, .str b => some (a = b)
    | .char a, .char b => some (a = b)
    | .bool a, .bool b => some (a = b)
    | .array a, .array b => valueListEqF fuel h a b
    | .struct c1, .struct c2 =>
      match List.get? h c1, List.get? h c2 with
      | some (.cell o1), some (.cell o2) => optObjEqF fuel h o1 o2
      | _, _ => none
    | .structRef c1, .structRef c2 =>
      match h.upgrade c1, h.upgrade c2 with
      | some o1, some o2 => optObjEqF fuel h o1 o2
      | none, none => some true
      | _, _ => some false
    | v, w => some (v.discrim = w.discrim)
  termination_by structural fuel => fuel

/-- Slice equality: length first (short-circuit), then elementwise. -/
def valueListEqF : Nat → Heap → List Value → List Value → Option Bool
  | 0, _, _, _ => none
  | _ + 1, _, [], [] => some true
  | fuel + 1, h, a :: as1, b :: bs1 =>
    if as1.length = bs1.length then
      match valueEqF fuel h a b with
      | none => none
      | some false => some false
      | some true => valueListEqF fuel h as1 bs1
    else some false
  | _ + 1, _, _, _ => some false
  termination_by structural fuel => fuel

/-- Equality of optional cell contents (Option<Struct>). -/
def optObjEqF : Nat → Heap → Option StructObj → Option StructObj → Option Bool
  | 0, _, _, _ => none
  | _ + 1, _, none, none => some true
  | fuel + 1, h, some a, some b => structObjEqF fuel h a b
  | _ + 1, _, _, _ => some false
  termination_by structural fuel => fuel

/-- Equality of struct instances: prototype address, then the member map
with HashMap semantics (same size, every key of the left map present on the
right with an equal member). -/
def structObjEqF : Nat → Heap → StructObj → StructObj → Option Bool
  | 0, _, _, _ => none
  | fuel + 1, h, a, b =>
    if a.structId = b.structId then
      if a.members.length = b.members.length then
        memberListEqF fuel h a.members b.members
      else some false
    else some false
  termination_by structural fuel => fuel

/-- Every (key, member) of the left list must be found on the right with
equal visibility and value. -/
def memberListEqF : Nat → Heap → List (String × Member) → List (String × Member) → Option Bool
  | 0, _, _, _ => none
  | _ + 1, _, [], _ => some true
  | fuel + 1, h, (k, m) :: rest, other =>
    match assocGet k other with
    | none => some false
    | some m1 =>
      if m.isPublic = m1.isPublic then
        match valueEqF fuel h m.value m1.value with
        | none => none
        | some false => some false
        | some true => memberListEqF fuel h rest other
      else some false
  termination_by structural fuel => fuel

end

mutual

/-- Expression trees (the closed set of implementors of the Expression trait
across runtime.rs, expressions.rs, arithmetic.rs and boolean.rs).  `lit`
is the impl of Expression for Value itself.  The clone-variable expression
form is omitted: the parser never emits it and no claim concerns it. -/
inductive Expr where
  | lit (v : Value)
  | variable (addr : List ScopeAddressant)
  | reference (addr : List ScopeAddressant)
  | procCall (procedureId : ModuleAddress) (args : List Expr)
  | structConstruction (structId : ModuleAddress) (fieldOverrides : List (String × Expr))
  | equality (lhs rhs : Expr)
  | add (lhs rhs : Expr)
  | subtract (lhs rhs : Expr)
  | multiply (lhs rhs : Expr)
  | divide (lhs rhs : Expr)
  | modulo (lhs rhs : Expr)
  | power (base exponent : Expr)
  | greaterThan (lhs rhs : Expr)
  | and (lhs rhs : Expr)
  | or (lhs rhs : Expr)
  | not (e : Expr)

/-- One step of a scope address (scope.rs, enum ScopeAddressant). -/
inductive ScopeAddressant where
  | identifier (s : String)
  | index (i : Nat)
  | dynamicIndex (e : Expr)

end

/-- A scope address is an addressant chain; the Rust ScopeAddress newtype
validates nonemptiness on construction, which the embedding checks at the
construction sites instead. -/
abbrev ScopeAddress := List ScopeAddressant

mutual

/-- Deep copy of a value (runtime.rs, impl Clone for Value).  Cloning a
Struct allocates a fresh cell holding a recursively cloned instance (a moved
cell clones to a fresh moved cell); cloning a StructRef copies the weak
handle; arrays clone elementwise (allocating for any struct elements);
scalars copy.  Cyclic structures make the Rust clone diverge, hence fuel. -/
def valueCloneF : Nat → Heap → Value → Option (Value × Heap)
  | 0, _, _ => none
  | fuel + 1, h, v =>
    match v with
    | .array elems =>
      match cloneListF fuel h elems with
      | none => none
      | some (vs, h1) => some (.array vs, h1)
    | .struct c =>
      match List.get? h c with
      | some (.cell none) => some (.struct h.length, h ++ [.cell none])
      | some (.cell (some obj)) =>
        match cloneObjF fuel h obj with
        | none => none
        | some (obj1, h1) => some (.struct h1.length, h1 ++ [.cell (some obj1)])
      | _ => none
    | .structRef c => some (.structRef c, h)
    | v => some (v, h)

/-- Clone a list of values left to right, threading the heap. -/
def cloneListF : Nat → Heap → List Value → Option (List Value × Heap)
  | 0, _, _ => none
  | _ + 1, h, [] => some ([], h)
  | fuel + 1, h, v :: vs =>
    match valueCloneF fuel h v with
    | none => none
    | some (v1, h1) =>
      match cloneListF fuel h1 vs with
      | none => none
      | some (vs1, h2) => some (v1 :: vs1, h2)

/-- Clone a struct instance: its address and every member value. -/
def cloneObjF : Nat → Heap → StructObj → Option (StructObj × Heap)
  | 0, _, _ => none
  | fuel + 1, h, obj =>
    match cloneMembersF fuel h obj.members with
    | none => none
    | some (ms, h1) => some (⟨obj.structId, ms⟩, h1)

/-- Clone each member of a member map.  Rust iterates the HashMap in an
unspecified order; the embedding uses list order, which only influences the
numbering of freshly allocated cells. -/
def cloneMembersF : Nat → Heap → List (String × Member) → Option (List (String × Member) × Heap)
  | 0, _, _ => none
  | _ + 1, h, [] => some ([], h)
  | fuel + 1, h, (k, m) :: rest =>
    match valueCloneF fuel h m.value with
    | none => none
    | some (v1, h1) =>
      match cloneMembersF fuel h1 rest with
      | none => none
      | some (ms, h2) => some ((k, ⟨m.isPublic, v1⟩) :: ms, h2)

end

/-- MemberMap::get_member: value of a member regardless of visibility. -/
def getMember (ms : List (String × Member)) (ident : String) : Except RuntimeError Value :=
  match assocGet ident ms with
  | none => .error ⟨"No member labeled '" ++ ident ++ "'!"⟩
  | some m => .ok m.value

/-- MemberMap::get_public_member: value of a member, failing on a private
field (via Member::get_value_if_public). -/
def getPublicMember (ms : List (String × Member)) (ident : String) : Except RuntimeError Value :=
  match assocGet ident ms with
  | none => .error ⟨"No member labeled '" ++ ident ++ "'!"⟩
  | some m =>
    if m.isPublic then .ok m.value
    else .error ⟨"Tried to access a private field!"⟩

/-- Replace the value of the member named k, keeping its visibility
(the write through MemberMap::get_member_mut / get_public_member_mut). -/
def memberUpdate (k : String) (v : Value) : List (String × Member) → List (String × Member)
  | [] => []
  | (k1, m) :: rest =>
    if k1 = k then (k1, ⟨m.isPublic, v⟩) :: rest
    else (k1, m) :: memberUpdate k v rest

/-- Read a value at an address (runtime.rs, Value::query).  With a nonempty
address the head addressant is applied (array indexing or struct member
access with the cross-module visibility check) and the tail is queried
recursively.  With an empty address, scalars, arrays and struct references
are cloned, while a Struct is moved out of its cell: the cell is emptied and
the result owns the instance in a freshly allocated cell.  Error messages
that interpolate Debug dumps of values are abbreviated (the typo in the
scalar-addressant message is from the source); fuel feeds the terminal
clone.  Outcome none models a Rust panic or an unreachable heap state. -/
def Value.query (fuel : Nat) (h : Heap) (v : Value) (address : List ScopeAddressant)
    (containedModuleId : String) : Option (Except RuntimeError (Value × Heap)) :=
  match address with
  | [] =>
    match v with
    | .struct c =>
      match List.get? h c with
      | some (.cell none) => some (.error ⟨"Use of moved value!"⟩)
      | some (.cell (some s)) =>
        let h1 := h.set c (.cell none)
        some (.ok (.struct h1.length, h1 ++ [.cell (some s)]))
      | _ => none
    | v =>
      match valueCloneF fuel h v with
      | none => none
      | some p => some (.ok p)
  | addressant :: rest =>
    match v with
    | .null | .integer _ | .float _ | .str _ | .char _ | .bool _ =>
      some (.error ⟨"Value doesn't acceppt addressant!"⟩)
    | .array arr =>
      match addressant with
      | .index i =>
        match List.get? arr i with
        | none => some (.error ⟨s!"Index out of bounds! Index {i} on array of length {arr.length}!"⟩)
        | some elem => Value.query fuel h elem rest containedModuleId
      | _ => some (.error ⟨"Arrays only accept indexing addressants!"⟩)
    | .struct c =>
      match addressant with
      | .identifier ident =>
        match List.get? h c with
        | some (.cell none) => some (.error ⟨"Use of moved value!"⟩)
        | some (.cell (some obj)) =>
          if obj.structId.moduleId = containedModuleId then
            match getMember obj.members ident with
            | .error e => some (.error e)
            | .ok v1 => Value.query fuel h v1 rest containedModuleId
          else
            match getPublicMember obj.members ident with
            | .error e => some (.error e)
            | .ok v1 => Value.query fuel h v1 rest containedModuleId
        | _ => none
      | _ => some (.error ⟨"Structs only accept identifier addressants!"⟩)
    | .structRef c =>
      match addressant with
      | .identifier ident =>
        match List.get? h c with
        | some .dropped => some (.error ⟨"Use of dropped value!"⟩)
        | some (.cell none) => some (.error ⟨"Use of moved value!"⟩)
        | some (.cell (some obj)) =>
          if obj.structId.moduleId = containedModuleId then
            match getMember obj.members ident with
            | .error e => some (.error e)
            | .ok v1 => Value.query fuel h v1 rest containedModuleId
          else
            match getPublicMember obj.members ident with
            | .error e => some (.error e)
            | .ok v1 => Value.query fuel h v1 rest containedModuleId
        | _ => none
      | _ => some (.error ⟨"Structs only accept identifier addressants!"⟩)

/-- Take a weak reference at an address (runtime.rs, Value::reference).
The source duplicates the query traversal verbatim for a nonempty address
and already delegates to query below the first addressant, so the nonempty
case coincides with Value::query; only the terminal case differs: a live
Struct yields a StructRef observing the same cell without moving, anything
else is an error. -/
def Value.reference (fuel : Nat) (h : Heap) (v : Value) (address : List ScopeAddressant)
    (containedModuleId : String) : Option (Except RuntimeError (Value × Heap)) :=
  match address with
  | [] =>
    match v with
    | .struct c =>
      match List.get? h c with
      | some (.cell none) => some (.error ⟨"Use of moved value!"⟩)
      | some (.cell (some _)) => some (.ok (.structRef c, h))
      | _ => none
    | _ => some (.error ⟨"Can only reference owned structs!"⟩)
  | addressant :: rest => Value.query fuel h v (addressant :: rest) containedModuleId

/-- Write a value at an address (runtime.rs, Value::set).  An empty address
replaces the target slot; otherwise the traversal mirrors query, with the
cross-module visibility check performed before descending, and the mutation
written back through the containing array or struct cell.  Writes through a
path that revisits the cell being mutated would panic in Rust (RefCell
double borrow); no claim exercises such cycles. -/
def Value.set (h : Heap) (v : Value) (address : List ScopeAddressant)
    (containedModuleId : String) (newValue : Value) :
    Option (Except RuntimeError (Value × Heap)) :=
  match address with
  | [] => some (.ok (newValue, h))
  | addressant :: rest =>
    match v with
    | .null | .integer _ | .float _ | .str _ | .char _ | .bool _ =>
      some (.error ⟨"Value doesn't acceppt addressant!"⟩)
    | .array arr =>
      match addressant with
      | .index i =>
        match List.get? arr i with
        | none => some (.error ⟨s!"Index out of bounds! Index {i} on array of length {arr.length}!"⟩)
        | some elem =>
          match Value.set h elem rest containedModuleId newValue with
          | some (.ok (elem1, h1)) => some (.ok (.array (arr.set i elem1), h1))
          | other => other
      | _ => some (.error ⟨"Arrays only accept indexing addressants!"⟩)
    | .struct c =>
      match addressant with
      | .identifier ident =>
        match List.get? h c with
        | some (.cell none) => some (.error ⟨"Use of moved value!"⟩)
        | some (.cell (some obj)) =>
          if obj.structId.moduleId = containedModuleId then
            match assocGet ident obj.members with
            | none => some (.error ⟨"No member labeled '" ++ ident ++ "'!"⟩)
            | some m =>
              match Value.set h m.value rest containedModuleId newValue with
              | some (.ok (v1, h1)) =>
                some (.ok (.struct c, h1.set c (.cell (some ⟨obj.structId, memberUpdate ident v1 obj.members⟩))))
              | other => other
          else
            match assocGet ident obj.members with
            | none => some (.error ⟨"No member labeled '" ++ ident ++ "'!"⟩)
            | some m =>
              if m.isPublic then
                match Value.set h m.value rest containedModuleId newValue with
                | some (.ok (v1, h1)) =>
                  some (.ok (.struct c, h1.set c (.cell (some ⟨obj.structId, memberUpdate ident v1 obj.members⟩))))
                | other => other
              else some (.error ⟨"Tried to access a private field!"⟩)
        | _ => none
      | _ => some (.error ⟨"Structs only accept identifier addressants!"⟩)
    | .structRef c =>
      match addressant with
      | .identifier ident =>
        match List.get? h c with
        | some .dropped => some (.error ⟨"Use of dropped value!"⟩)
        | some (.cell none) => some (.error ⟨"Use of moved value!"⟩)
        | some (.cell (some obj)) =>
          if obj.structId.moduleId = containedModuleId then
            match assocGet ident obj.members with
            | none => some (.error ⟨"No member labeled '" ++ ident ++ "'!"⟩)
            | some m =>
              match Value.set h m.value rest containedModuleId newValue with
              | some (.ok (v1, h1)) =>
                some (.ok (.structRef c, h1.set c (.cell (some ⟨obj.structId, memberUpdate ident v1 obj.members⟩))))
              | other => other
          else
            match assocGet ident obj.members with
            | none => some (.error ⟨"No member labeled '" ++ ident ++ "'!"⟩)
            | some m =>
              if m.isPublic then
                match Value.set h m.value rest containedModuleId newValue with
                | some (.ok (v1, h1)) =>
                  some (.ok (.structRef c, h1.set c (.cell (some ⟨obj.structId, memberUpdate ident v1 obj.members⟩))))
                | other => other
              else some (.error ⟨"Tried to access a private field!"⟩)
        | _ => none
      | _ => some (.error ⟨"Structs only accept identifier addressants!"⟩)

/-!  Scope stack (scope.rs, Stack and Scope).  A frame is a HashMap from
identifier to value, modelled as an association list with distinct keys;
the stack is modelled with the TOP frame FIRST (the Rust Vec keeps the top
last).  Operations that compute the Rust index len-1 panic on an empty
stack; those panics are outcome none. -/

/-- One scope frame. -/
abbrev Frame := List (String × Value)

/-- A stack of frames, top first. -/
abbrev Stack := List Frame

/-- HashMap::get on a frame. -/
def frameGet (x : String) : Frame → Option Value
  | [] => none
  | (k, v) :: rest => if k = x then some v else frameGet x rest

/-- HashMap::insert on a frame: overwrite an existing binding or append a
new one; also reports whether the key was already present. -/
def frameInsert (x : String) (v : Value) : Frame → Frame × Bool
  | [] => ([(x, v)], false)
  | (k, w) :: rest =>
    if k = x then ((k, v) :: rest, true)
    else
      let (rest1, existed) := frameInsert x v rest
      ((k, w) :: rest1, existed)

/-- HashMap::remove on a frame, reporting whether the key was present. -/
def frameRemove (x : String) : Frame → Frame × Bool
  | [] => ([], false)
  | (k, w) :: rest =>
    if k = x then (rest, true)
    else
      let (rest1, existed) := frameRemove x rest
      ((k, w) :: rest1, existed)

/-- Stack::new: a single empty frame. -/
def stackNew : Stack := [[]]

/-- Stack::grow: push a fresh frame on top. -/
def stackGrow (st : Stack) : Stack := [] :: st

/-- Stack::shrink: Vec::pop of the top frame (a no-op on an empty stack). -/
def stackShrink (st : Stack) : Stack := st.tail

/-- Stack::push: bind an identifier in the top frame, failing if it is
already bound there.  On an empty stack the Rust index len-1 underflows
(panic).  The Rust code performs the insert before noticing the collision;
the error return makes the mutated stack unobservable. -/
def stackPush (st : Stack) (x : String) (v : Value) : Option (Except RuntimeError Stack) :=
  match st with
  | [] => none
  | top :: rest =>
    let (top1, existed) := frameInsert x v top
    if existed then some (.error ⟨s!"Variable '{x}' already present in this scope!"⟩)
    else some (.ok (top1 :: rest))

/-- Stack::pop: remove an identifier from the top frame, failing if absent. -/
def stackPop (st : Stack) (x : String) : Option (Except RuntimeError Stack) :=
  match st with
  | [] => none
  | top :: rest =>
    let (top1, existed) := frameRemove x top
    if existed then some (.ok (top1 :: rest))
    else some (.error ⟨s!"Variable '{x}' cannot be popped from the stack as it is not present!"⟩)

/-- Stack::insert_members: extend the top frame (panics on an empty
stack). -/
def stackInsertMembers (st : Stack) (ms : List (String × Value)) : Option Stack :=
  match st with
  | [] => none
  | top :: rest => some ((ms.foldl (fun f kv => (frameInsert kv.1 kv.2 f).1) top) :: rest)

/-- Stack::get: walk the frames from the top down. -/
def stackGet (st : Stack) (x : String) : Except RuntimeError Value :=
  match st with
  | [] => .error ⟨s!"Could not find the variable '{x}' in this scope!"⟩
  | top :: rest =>
    match frameGet x top with
    | some v => .ok v
    | none => stackGet rest x

/-- Index (from the top) of the first frame binding x together with the
bound value: the frame Stack::get_mut would target. -/
def stackFindTop (st : Stack) (x : String) : Option (Nat × Value) :=
  match st with
  | [] => none
  | top :: rest =>
    match frameGet x top with
    | some v => some (0, v)
    | none =>
      match stackFindTop rest x with
      | none => none
      | some (i, v) => some (i + 1, v)

/-- Overwrite the binding of x in the i-th frame from the top. -/
def stackWriteAt (st : Stack) (i : Nat) (x : String) (v : Value) : Stack :=
  match st, i with
  | [], _ => []
  | top :: rest, 0 => (frameInsert x v top).1 :: rest
  | top :: rest, i + 1 => top :: stackWriteAt rest i x v

/-- Scope::query_variable on a baked address: resolve the leading
identifier in the stack, then query the remaining addressants through the
value.  An empty address or a leftover dynamic index is a panic (unwrap /
explicit panic in scope.rs). -/
def scopeQueryVariable (fuel : Nat) (st : Stack) (h : Heap) (address : List ScopeAddressant)
    (containedModuleId : String) : Option (Except RuntimeError (Value × Heap)) :=
  match address with
  | [] => none
  | .identifier x :: rest =>
    match stackGet st x with
    | .error e => some (.error e)
    | .ok v => Value.query fuel h v rest containedModuleId
  | .index _ :: _ => some (.error ⟨"Expected variable identifier, found index!"⟩)
  | .dynamicIndex _ :: _ => none

/-- Scope::reference_variable on a baked address. -/
def scopeReferenceVariable (fuel : Nat) (st : Stack) (h : Heap) (address : List ScopeAddressant)
    (containedModuleId : String) : Option (Except RuntimeError (Value × Heap)) :=
  match address with
  | [] => none
  | .identifier x :: rest =>
    match stackGet st x with
    | .error e => some (.error e)
    | .ok v => Value.reference fuel h v rest containedModuleId
  | .index _ :: _ => some (.error ⟨"Expected variable identifier, found index!"⟩)
  | .dynamicIndex _ :: _ => none

/-- Scope::set_variable on a baked address: resolve the leading identifier
to its innermost binding frame (Stack::get_mut) and apply Value::set there,
writing the updated slot back. -/
def scopeSetVariable (st : Stack) (h : Heap) (address : List ScopeAddressant)
    (containedModuleId : String) (newValue : Value) :
    Option (Except RuntimeError (Stack × Heap)) :=
  match address with
  | [] => none
  | .identifier x :: rest =>
    match stackFindTop st x with
    | none => some (.error ⟨s!"Could not find the variable '{x}' in this scope!"⟩)
    | some (i, v) =>
      match Value.set h v rest containedModuleId newValue with
      | none => none
      | some (.error e) => some (.error e)
      | some (.ok (v1, h1)) => some (.ok (stackWriteAt st i x v1, h1))
  | .index _ :: _ => some (.error ⟨"Expected variable identifier, found index!"⟩)
  | .dynamicIndex _ :: _ => none

/-!  Instructions, procedures, modules and the interpreter
(procedures.rs, module.rs, environment.rs, expressions.rs). -/

/-- Instructions (procedures.rs, enum Instruction); ret is
Instruction::Return. -/
inductive Instr where
  | pushVarToScope (identifier : String)
  | popVarFromScope (identifier : String)
  | growStack
  | shrinkStack
  | evaluateExpression (expression : Expr) (target : Option ScopeAddress)
  | jumpConditional (conditionExpression : Expr) (jumpTarget : Nat)
  | ret (expression : Expr)

/-- A callable procedure body: a CompiledProcedure (argument identifiers
plus instruction list) or one of the built-in Procedure implementors used
by the claims (arrays.rs).  The remaining built-ins (Strings, Numbers) are
not exercised by any claim and are omitted. -/
inductive ProcBody where
  | compiled (argumentsIdentifiers : List String) (instructions : List Instr)
  | arraysNew
  | arraysSize

/-- Generic association-list lookup standing in for HashMap::get. -/
def alistGet {α : Type} (k : String) : List (String × α) → Option α
  | [] => none
  | (k1, v) :: rest => if k1 = k then some v else alistGet k rest

/-- A module: named struct prototypes and procedures, each with an exported
flag (module.rs, struct Module). -/
structure Module where
  structPrototypes : List (String × StructObj × Bool)
  procedures : List (String × ProcBody × Bool)

/-- Module::get_procedure with its export check. -/
def Module.getProcedure (m : Module) (identifier : String) (privateAccess : Bool) :
    Except RuntimeError ProcBody :=
  match alistGet identifier m.procedures with
  | none => .error ⟨s!"Procedure \"{identifier}\" not defined in this module!"⟩
  | some (p, exported) =>
    if exported || privateAccess then .ok p
    else .error ⟨s!"Procedure \"{identifier}\" is not exported by this module!"⟩

/-- Module::get_struct with its export check.  The source clones the
prototype; prototype member values are always Null by construction
(compiler states/struct.rs binds each declared field to Value::Null), so the
deep clone allocates nothing and a structural copy is exact. -/
def Module.getStruct (m : Module) (identifier : String) (privateAccess : Bool) :
    Except RuntimeError StructObj :=
  match alistGet identifier m.structPrototypes with
  | none => .error ⟨s!"Struct \"{identifier}\" not defined in this module!"⟩
  | some (proto, exported) =>
    if exported || privateAccess then .ok proto
    else .error ⟨s!"Struct \"{identifier}\" is not exported by this module!"⟩

/-- The runtime execution context (environment.rs, struct Environment). -/
structure Environment where
  containedModuleId : String
  loadedModules : List (String × Module)
  scope : Stack

/-- Environment::get_procedure_by_address. -/
def Environment.getProcedureByAddress (env : Environment) (address : ModuleAddress) :
    Except RuntimeError ProcBody :=
  match alistGet address.moduleId env.loadedModules with
  | none => .error ⟨s!"Module \"{address.moduleId}\" not loaded in this environment!"⟩
  | some m => m.getProcedure address.identifier (address.moduleId = env.containedModuleId)

/-- Environment::get_struct_by_address. -/
def Environment.getStructByAddress (env : Environment) (address : ModuleAddress) :
    Except RuntimeError StructObj :=
  match alistGet address.moduleId env.loadedModules with
  | none => .error ⟨s!"Module '{address.moduleId}' not loaded in this environment!"⟩
  | some m => m.getStruct address.identifier (address.moduleId = env.containedModuleId)

/-- Environment::open_subenvironment: same modules, the callee's module id,
a fresh scope. -/
def Environment.openSubenvironment (env : Environment) (address : ModuleAddress) : Environment :=
  { containedModuleId := address.moduleId
    loadedModules := env.loadedModules
    scope := stackNew }

/-- NewArrayProcedure::call (arrays.rs): a missing first argument defaults
to Integer(0); an Integer n yields an Array of (n as usize) Nulls; anything
else is a type error. -/
def newArrayProcedureCall (h : Heap) (args : List Value) : Except RuntimeError Value :=
  let size := args.headD (.integer 0)
  match size with
  | .integer n => .ok (.array (List.replicate (usizeOfI64 n) .null))
  | other => .error ⟨s!"Array size needs to be of type Integer, found {other.getTypeId h}!"⟩

/-- ArraySizeProcedure::call (arrays.rs): the length of an Array as an
Integer; a missing argument or a non-array is an error. -/
def arraySizeProcedureCall (h : Heap) (args : List Value) : Except RuntimeError Value :=
  match args.head? with
  | none => .error ⟨"Missing argument!"⟩
  | some (.array arr) => .ok (.integer (i64OfUsize arr.length))
  | some other => .error ⟨s!"Cannot identify size of {other.getTypeId h}!"⟩

mutual

/-- Expression evaluation (Expression::eval across expressions.rs,
arithmetic.rs, boolean.rs and the impl for Value).  Heap mutation by moves
and allocations is threaded explicitly; i64 arithmetic wraps (wrap64);
integer division, remainder by zero and division overflow are Rust panics,
hence outcome none. -/
def evalExpr : Nat → Environment → Heap → Expr → Option (Except RuntimeError (Value × Heap))
  | 0, _, _, _ => none
  | fuel + 1, env, h, e =>
    match e with
    | .lit v =>
      match valueCloneF fuel h v with
      | none => none
      | some p => some (.ok p)
    | .variable addr =>
      match bakeAddress fuel env h addr with
      | none => none
      | some (.error e) => some (.error e)
      | some (.ok (baked, h1)) =>
        scopeQueryVariable fuel env.scope h1 baked env.containedModuleId
    | .reference addr =>
      match bakeAddress fuel env h addr with
      | none => none
      | some (.error e) => some (.error e)
      | some (.ok (baked, h1)) =>
        scopeReferenceVariable fuel env.scope h1 baked env.containedModuleId
    | .procCall pid argExprs =>
      match env.getProcedureByAddress pid with
      | .error e => some (.error e)
      | .ok body =>
        match evalExprList fuel env h argExprs with
        | none => none
        | some (.error e) => some (.error e)
        | some (.ok (vals, h1)) => callBody fuel body (env.openSubenvironment pid) h1 vals
    | .structConstruction sid fields =>
      match env.getStructByAddress sid with
      | .error e => some (.error e)
      | .ok proto =>
        match evalFieldOverrides fuel env h proto fields with
        | none => none
        | some (.error e) => some (.error e)
        | some (.ok (inst, h1)) => some (.ok (.struct h1.length, h1 ++ [.cell (some inst)]))
    | .equality l r =>
      match evalExpr fuel env h l with
      | none => none
      | some (.error e) => some (.error e)
      | some (.ok (lv, h1)) =>
        match evalExpr fuel env h1 r with
        | none => none
        | some (.error e) => some (.error e)
        | some (.ok (rv, h2)) =>
          match valueEqF fuel h2 lv rv with
          | none => none
          | some b => some (.ok (.bool b, h2))
    | .add l r =>
      match evalExpr fuel env h l with
      | none => none
      | some (.error e) => some (.error e)
      | some (.ok (lv, h1)) =>
        match evalExpr fuel env h1 r with
        | none => none
        | some (.error e) => some (.error e)
        | some (.ok (rv, h2)) =>
          match lv, rv with
          | .integer a, .integer b => some (.ok (.integer (wrap64 (a + b)), h2))
          | .float a, .float b => some (.ok (.float (floatArith a b), h2))
          | .str a, .str b => some (.ok (.str (a ++ b), h2))
          | .str a, .integer b => some (.ok (.str (a ++ toString b), h2))
          | .str a, .float _ => some (.ok (.str (a ++ "Float"), h2))
          | .integer a, .str b => some (.ok (.str (toString a ++ b), h2))
          | .float _, .str b => some (.ok (.str ("Float" ++ b), h2))
          | lv, rv =>
            some (.error ⟨s!"Cannot add {lv.getTypeId h2} and {rv.getTypeId h2}!"⟩)
    | .subtract l r =>
      match evalExpr fuel env h l with
      | none => none
      | some (.error e) => some (.error e)
      | some (.ok (lv, h1)) =>
        match evalExpr fuel env h1 r with
        | none => none
        | some (.error e) => some (.error e)
        | some (.ok (rv, h2)) =>
          match lv, rv with
          | .integer a, .integer b => some (.ok (.integer (wrap64 (a - b)), h2))
          | .float a, .float b => some (.ok (.float (floatArith a b), h2))
          | lv, rv =>
            some (.error ⟨s!"Cannot subtract {lv.getTypeId h2} and {rv.getTypeId h2}!"⟩)
    | .multiply l r =>
      match evalExpr fuel env h l with
      | none => none
      | some (.error e) => some (.error e)
      | some (.ok (lv, h1)) =>
        match evalExpr fuel env h1 r with
        | none => none
        | some (.error e) => some (.error e)
        | some (.ok (rv, h2)) =>
          match lv, rv with
          | .integer a, .integer b => some (.ok (.integer (wrap64 (a * b)), h2))
          | .float a, .float b => some (.ok (.float (floatArith a b), h2))
          | lv, rv =>
            some (.error ⟨s!"Cannot multiply {lv.getTypeId h2} and {rv.getTypeId h2}!"⟩)
    | .divide l r =>
      match evalExpr fuel env h l with
      | none => none
      | some (.error e) => some (.error e)
      | some (.ok (lv, h1)) =>
        match evalExpr fuel env h1 r with
        | none => none
        | some (.error e) => some (.error e)
        | some (.ok (rv, h2)) =>
          match lv, rv with
          | .integer a, .integer b =>
            if b = 0 ∨ (a = i64Min ∧ b = -1) then none
            else some (.ok (.integer (Int.tdiv a b), h2))
          | .float a, .float b => some (.ok (.float (floatArith a b), h2))
          | lv, rv =>
            some (.error ⟨s!"Cannot divide {lv.getTypeId h2} and {rv.getTypeId h2}!"⟩)
    | .modulo l r =>
      match evalExpr fuel env h l with
      | none => none
      | some (.error e) => some (.error e)
      | some (.ok (lv, h1)) =>
        match evalExpr fuel env h1 r with
        | none => none
        | some (.error e) => some (.error e)
        | some (.ok (rv, h2)) =>
          match lv, rv with
          | .integer a, .integer b =>
            if b = 0 ∨ (a = i64Min ∧ b = -1) then none
            else some (.ok (.integer (Int.emod a b), h2))
          | .float a, .float b => some (.ok (.float (floatArith a b), h2))
          | lv, rv =>
            some (.error ⟨s!"Cannot modulate {lv.getTypeId h2} by {rv.getTypeId h2}!"⟩)
    | .power l r =>
      match evalExpr fuel env h l with
      | none => none
      | some (.error e) => some (.error e)
      | some (.ok (lv, h1)) =>
        match evalExpr fuel env h1 r with
        | none => none
        | some (.error e) => some (.error e)
        | some (.ok (rv, h2)) =>
          match lv, rv with
          | .integer a, .integer b =>
            if b < 0 ∨ (2 ^ 32 : Int) ≤ b then
              some (.error ⟨"Could not compute power; the exponent was too large!"⟩)
            else
              let p := a ^ b.toNat
              if i64Min ≤ p ∧ p < 2 ^ 63 then some (.ok (.integer p, h2))
              else some (.error ⟨"Overflow occured while computing power!"⟩)
          | .float a, .float b => some (.ok (.float (floatArith a b), h2))
          | lv, rv =>
            some (.error ⟨s!"Cannot compute power of {lv.getTypeId h2} and {rv.getTypeId h2}!"⟩)
    | .greaterThan l r =>
      match evalExpr fuel env h l with
      | none => none
      | some (.error e) => some (.error e)
      | some (.ok (lv, h1)) =>
        match evalExpr fuel env h1 r with
        | none => none
        | some (.error e) => some (.error e)
        | some (.ok (rv, h2)) =>
          match lv, rv with
          | .integer a, .integer b => some (.ok (.bool (b < a), h2))
          | .float a, .float b => some (.ok (.bool (floatGtBits a b), h2))
          | lv, rv =>
            some (.error ⟨s!"Ordering is undefined on {lv.getTypeId h2} and {rv.getTypeId h2}!"⟩)
    | .and l r =>
      match evalExpr fuel env h l with
      | none => none
      | some (.error e) => some (.error e)
      | some (.ok (lv, h1)) =>
        match evalExpr fuel env h1 r with
        | none => none
        | some (.error e) => some (.error e)
        | some (.ok (rv, h2)) =>
          match lv, rv with
          | .bool a, .bool b => some (.ok (.bool (a && b), h2))
          | lv, rv =>
            some (.error ⟨s!"Cannot perform boolean and operation on {lv.getTypeId h2} and {rv.getTypeId h2}!"⟩)
    | .or l r =>
      match evalExpr fuel env h l with
      | none => none
      | some (.error e) => some (.error e)
      | some (.ok (lv, h1)) =>
        match evalExpr fuel env h1 r with
        | none => none
        | some (.error e) => some (.error e)
        | some (.ok (rv, h2)) =>
          match lv, rv with
          | .bool a, .bool b => some (.ok (.bool (a || b), h2))
          | lv, rv =>
            some (.error ⟨s!"Cannot perform boolean or operation on {lv.getTypeId h2} and {rv.getTypeId h2}!"⟩)
    | .not e1 =>
      match evalExpr fuel env h e1 with
      | none => none
      | some (.error e) => some (.error e)
      | some (.ok (v, h1)) =>
        match v with
        | .bool b => some (.ok (.bool (!b), h1))
        | v => some (.error ⟨s!"Cannot perform boolean nor operation on {v.getTypeId h1}!"⟩)

/-- Evaluate procedure-call arguments left to right
(ProcedureCallExpression::eval). -/
def evalExprList : Nat → Environment → Heap → List Expr → Option (Except RuntimeError (List Value × Heap))
  | 0, _, _, _ => none
  | _ + 1, _, h, [] => some (.ok ([], h))
  | fuel + 1, env, h, e :: es =>
    match evalExpr fuel env h e with
    | none => none
    | some (.error err) => some (.error err)
    | some (.ok (v, h1)) =>
      match evalExprList fuel env h1 es with
      | none => none
      | some (.error err) => some (.error err)
      | some (.ok (vs, h2)) => some (.ok (v :: vs, h2))

/-- Apply struct-construction field overrides in source order
(StructConstructionExpression::eval with MemberMap::set_member, which does
not check visibility). -/
def evalFieldOverrides : Nat → Environment → Heap → StructObj → List (String × Expr) →
    Option (Except RuntimeError (StructObj × Heap))
  | 0, _, _, _, _ => none
  | _ + 1, _, h, inst, [] => some (.ok (inst, h))
  | fuel + 1, env, h, inst, (f, e) :: rest =>
    match evalExpr fuel env h e with
    | none => none
    | some (.error err) => some (.error err)
    | some (.ok (v, h1)) =>
      match assocGet f inst.members with
      | none => some (.error ⟨"No member labeled '" ++ f ++ "'!"⟩)
      | some _ =>
        evalFieldOverrides fuel env h1 ⟨inst.structId, memberUpdate f v inst.members⟩ rest

/-- ScopeAddress::try_bake: evaluate every dynamic index to a non-negative
Integer and convert it to a static index (scope.rs).  A negative index is
the TryFromIntError message; a non-Integer is a type mismatch. -/
def bakeAddress : Nat → Environment → Heap → List ScopeAddressant →
    Option (Except RuntimeError (List ScopeAddressant × Heap))
  | 0, _, _, _ => none
  | _ + 1, _, h, [] => some (.ok ([], h))
  | fuel + 1, env, h, a :: rest =>
    match a with
    | .identifier x =>
      match bakeAddress fuel env h rest with
      | none => none
      | some (.error err) => some (.error err)
      | some (.ok (baked, h1)) => some (.ok (.identifier x :: baked, h1))
    | .index i =>
      match bakeAddress fuel env h rest with
      | none => none
      | some (.error err) => some (.error err)
      | some (.ok (baked, h1)) => some (.ok (.index i :: baked, h1))
    | .dynamicIndex e =>
      match evalExpr fuel env h e with
      | none => none
      | some (.error err) => some (.error err)
      | some (.ok (v, h1)) =>
        match v with
        | .integer n =>
          if n < 0 then some (.error ⟨"out of range integral type conversion attempted"⟩)
          else
            match bakeAddress fuel env h1 rest with
            | none => none
            | some (.error err) => some (.error err)
            | some (.ok (baked, h2)) => some (.ok (.index n.toNat :: baked, h2))
        | v => some (.error ⟨s!"Mismatched types! Expected Integer, found {v.getTypeId h1}!"⟩)

/-- The instruction loop of CompiledProcedure::call (procedures.rs): fetch
the instruction at the program counter, execute it, and continue; falling
off the end of the list returns Null.  A JumpConditional sets the counter
to the jump target on Bool(true) without the usual increment, falls through
on Bool(false), and is a runtime error on any other value type.  Fuel
decreases once per iteration; exhaustion (or a panic in a sub-operation) is
none. -/
def runInstrs : Nat → List Instr → Nat → Environment → Heap →
    Option (Except RuntimeError (Value × Heap))
  | 0, _, _, _, _ => none
  | fuel + 1, instrs, pc, env, h =>
    match List.get? instrs pc with
    | none => some (.ok (.null, h))
    | some instr =>
      match instr with
      | .pushVarToScope x =>
        match stackPush env.scope x .null with
        | none => none
        | some (.error e) => some (.error e)
        | some (.ok st1) => runInstrs fuel instrs (pc + 1) { env with scope := st1 } h
      | .popVarFromScope x =>
        match stackPop env.scope x with
        | none => none
        | some (.error e) => some (.error e)
        | some (.ok st1) => runInstrs fuel instrs (pc + 1) { env with scope := st1 } h
      | .growStack => runInstrs fuel instrs (pc + 1) { env with scope := stackGrow env.scope } h
      | .shrinkStack => runInstrs fuel instrs (pc + 1) { env with scope := stackShrink env.scope } h
      | .evaluateExpression e target =>
        match evalExpr fuel env h e with
        | none => none
        | some (.error err) => some (.error err)
        | some (.ok (v, h1)) =>
          match target with
          | none => runInstrs fuel instrs (pc + 1) env h1
          | some addr =>
            match bakeAddress fuel env h1 addr with
            | none => none
            | some (.error err) => some (.error err)
            | some (.ok (baked, h2)) =>
              match scopeSetVariable env.scope h2 baked env.containedModuleId v with
              | none => none
              | some (.error err) => some (.error err)
              | some (.ok (st1, h3)) =>
                runInstrs fuel instrs (pc + 1) { env with scope := st1 } h3
      | .jumpConditional cond target =>
        match evalExpr fuel env h cond with
        | none => none
        | some (.error err) => some (.error err)
        | some (.ok (v, h1)) =>
          match v with
          | .bool true => runInstrs fuel instrs target env h1
          | .bool false => runInstrs fuel instrs (pc + 1) env h1
          | v => some (.error ⟨s!"Expected Bool, found {v.getTypeId h1}!"⟩)
      | .ret e => evalExpr fuel env h e

/-- Procedure::call dispatch.  For a CompiledProcedure the declared argument
identifiers are zipped with the supplied values (no arity check: extras are
dropped by zip, missing parameters stay unbound), the pairs are injected
into the top scope frame, and the instruction loop starts at 0.  Built-ins
ignore the environment. -/
def callBody : Nat → ProcBody → Environment → Heap → List Value →
    Option (Except RuntimeError (Value × Heap))
  | 0, _, _, _, _ => none
  | fuel + 1, body, env, h, args =>
    match body with
    | .compiled ids instrs =>
      match stackInsertMembers env.scope (ids.zip args) with
      | none => none
      | some st1 => runInstrs fuel instrs 0 { env with scope := st1 } h
    | .arraysNew =>
      match newArrayProcedureCall h args with
      | .error e => some (.error e)
      | .ok v => some (.ok (v, h))
    | .arraysSize =>
      match arraySizeProcedureCall h args with
      | .error e => some (.error e)
      | .ok v => some (.ok (v, h))

end

/-!  Tokens (lexer/token.rs). -/

/-- Opening/closing polarity of a bracket token. -/
inductive ParenthesisType where
  | opening
  | closing
deriving DecidableEq, Repr

/-- Keyword tokens; names carry a k prefix where the Rust name collides
with a Lean keyword. -/
inductive KeywordToken where
  | kLet | kConst | kProc | kStruct | kReturn | kFor | kWhile | kIf | kElse
  | kContinue | kBreak | kModule | kExport | kImport | kFrom | kPublic
  | kIs | kRef | kClone
deriving DecidableEq, Repr

/-- Operator tokens. -/
inductive OperatorToken where
  | assignment | plus | minus | multiply | divide | modulo | power | opNot
  | opAnd | opOr | equality | inequality | greater | less | greaterEquals
  | lessEquals
deriving DecidableEq, Repr

/-- Punctuation tokens; atSign is the Rust At. -/
inductive PunctuationToken where
  | parenthesis (p : ParenthesisType)
  | squareBrackets (p : ParenthesisType)
  | curlyBraces (p : ParenthesisType)
  | comma | dot | colon | doubleColon | semicolon | atSign
deriving DecidableEq, Repr

/-- Literal tokens carry their source text. -/
inductive LiteralToken where
  | null
  | integer (text : String)
  | decimal (text : String)
  | boolean (text : String)
  | char (text : String)
  | str (text : String)
deriving DecidableEq, Repr

/-- Primitive type tokens. -/
inductive PrimitiveTypeToken where
  | integer | decimal | boolean | char | str | array
deriving DecidableEq, Repr

/-- Tokens (lexer/token.rs, enum Token). -/
inductive Token where
  | keyword (k : KeywordToken)
  | operator (op : OperatorToken)
  | punctuation (p : PunctuationToken)
  | identifier (name : String)
  | literal (lit : LiteralToken)
  | primitiveType (t : PrimitiveTypeToken)
deriving DecidableEq, Repr

/-- Parse an i64 out of literal text; fails outside the i64 range.  Lean
String.toInt? accepts the sign-and-digits forms the tokenizer produces. -/
def parseI64 (s : String) : Option Int :=
  match s.toInt? with
  | some n => if i64Min ≤ n ∧ n < 2 ^ 63 then some n else none
  | none => none

/-- Unspecified bit pattern for a decimal literal; IEEE parsing of decimal
text is outside the scope of this embedding and no claim involves decimal
literals. -/
def floatLitBits (_s : String) : Nat := 0

/-- Conversion of a literal token to a runtime value (runtime.rs, impl
TryFrom of LiteralToken for Value). -/
def valueTryFromLiteral : LiteralToken → Except CompilerError Value
  | .null => .ok .null
  | .integer s =>
    match parseI64 s with
    | some n => .ok (.integer n)
    | none => .error ⟨s!"Could not parse '{s}' as a whole number!"⟩
  | .decimal s => .ok (.float (floatLitBits s))
  | .boolean s =>
    if s = "true" then .ok (.bool true)
    else if s = "false" then .ok (.bool false)
    else .error ⟨s!"Could not parse {s} as a boolean!"⟩
  | .char s =>
    match s.toList with
    | [] => .error ⟨s!"Could not parse {s} as a char!"⟩
    | c :: _ => .ok (.char c)
  | .str s => .ok (.str s)

/-!  Expression parser (compiler/expression_parser.rs).  The folding loop
indexes atom slots with usize arithmetic that can underflow and splices with
possibly out-of-range bounds; a debug build panics at the subtraction, a
release build wraps and then panics at the out-of-range access.  Both are
modelled by carrying slot indices as Int: a negative or out-of-range index
is the panic outcome.  Results distinguish success, CompilerError, panic
and fuel exhaustion. -/

/-- Outcome of a parser computation. -/
inductive PRes (α : Type) where
  | ok (val : α)
  | cerr (err : CompilerError)
  | panic
  | fuelOut

/-- Raw atoms produced by splitting: token slices and operators. -/
inductive RawExpressionAtom where
  | subexpression (tokens : List Token)
  | operator (op : OperatorToken)
deriving DecidableEq, Repr

/-- Parsed atoms: subexpression trees and operators. -/
inductive ExpressionAtom where
  | subexpression (e : Expr)
  | operator (op : OperatorToken)

/-- Operator precedence table (ExpressionParser::get_precedence). -/
def getPrecedence : OperatorToken → Nat
  | .assignment => 0
  | .plus => 1
  | .minus => 1
  | .multiply => 2
  | .divide => 2
  | .modulo => 3
  | .power => 4
  | .opNot => 10
  | .opAnd => 2
  | .opOr => 1
  | .equality => 0
  | .inequality => 0
  | .greater => 0
  | .less => 0
  | .greaterEquals => 0
  | .lessEquals => 0

/-- Build the expression node of a binary operator
(ExpressionParser::resolve_binary_operator).  The comparison operators are
derived: less swaps greater, the non-strict comparisons and inequality wrap
a negation around the swapped or direct strict form. -/
def resolveBinaryOperator (op : OperatorToken) (lhs rhs : Expr) : Except CompilerError Expr :=
  match op with
  | .assignment => .error ⟨"Assignment operator disallowed in expressions!"⟩
  | .plus => .ok (.add lhs rhs)
  | .minus => .ok (.subtract lhs rhs)
  | .multiply => .ok (.multiply lhs rhs)
  | .divide => .ok (.divide lhs rhs)
  | .modulo => .ok (.modulo lhs rhs)
  | .power => .ok (.power lhs rhs)
  | .opAnd => .ok (.and lhs rhs)
  | .opOr => .ok (.or lhs rhs)
  | .equality => .ok (.equality lhs rhs)
  | .inequality => .ok (.not (.equality lhs rhs))
  | .opNot => .error ⟨"'Not' operator is not a binary operator!"⟩
  | .greater => .ok (.greaterThan lhs rhs)
  | .less => .ok (.greaterThan rhs lhs)
  | .greaterEquals => .ok (.not (.greaterThan rhs lhs))
  | .lessEquals => .ok (.not (.greaterThan lhs rhs))

/-- Kinds of bracket. -/
inductive BracketKind where
  | paren | square | curly
deriving DecidableEq, Repr

/-- The bracket kind of a bracket punctuation token. -/
def bracketKindOf : Token → Option (BracketKind × ParenthesisType)
  | .punctuation (.parenthesis p) => some (.paren, p)
  | .punctuation (.squareBrackets p) => some (.square, p)
  | .punctuation (.curlyBraces p) => some (.curly, p)
  | _ => none

/-- Step of ExpressionParser::take_until_closing: returns the slice before
the matching closing token and the remaining tokens after it (the Rust
function consumes a shared iterator). -/
def takeUntilClosingGo (closingTok : Token) :
    List Token → List BracketKind → List Token → Except CompilerError (List Token × List Token)
  | [], stack, slice =>
    if stack.isEmpty then .ok (slice.reverse, [])
    else .error ⟨"Invalid parenthesis structure!"⟩
  | token :: rest, stack, slice =>
    if stack.length = 1 ∧ token = closingTok then .ok (slice.reverse, rest)
    else
      match bracketKindOf token with
      | some (k, .opening) => takeUntilClosingGo closingTok rest (k :: stack) (token :: slice)
      | some (k, .closing) =>
        match stack with
        | [] => .error ⟨"Invalid parenthesis structure!"⟩
        | top :: stackRest =>
          if top = k then takeUntilClosingGo closingTok rest stackRest (token :: slice)
          else .error ⟨"Invalid parenthesis structure!"⟩
      | none => takeUntilClosingGo closingTok rest stack (token :: slice)

/-- ExpressionParser::take_until_closing; none is the panic on a
non-bracket parameter, which no internal call site reaches. -/
def takeUntilClosing (tokens : List Token) (closingTok : Token) :
    Option (Except CompilerError (List Token × List Token)) :=
  match bracketKindOf closingTok with
  | none => none
  | some (k, _) => some (takeUntilClosingGo closingTok tokens [k] [])

/-- Step of ExpressionParser::split_by_commas. -/
def splitByCommasGo : List Token → List BracketKind → List Token → List (List Token) →
    Except CompilerError (List (List Token))
  | [], _, current, slices =>
    if current.isEmpty then .ok slices.reverse
    else .ok (current.reverse :: slices).reverse
  | token :: rest, stack, current, slices =>
    match bracketKindOf token with
    | some (k, .opening) => splitByCommasGo rest (k :: stack) (token :: current) slices
    | some (k, .closing) =>
      match stack with
      | [] => .error ⟨"Invalid parenthesis structure!"⟩
      | top :: stackRest =>
        if top = k then splitByCommasGo rest stackRest (token :: current) slices
        else .error ⟨"Invalid parenthesis structure!"⟩
    | none =>
      match token, stack with
      | .punctuation .comma, [] => splitByCommasGo rest [] [] (current.reverse :: slices)
      | _, _ => splitByCommasGo rest stack (token :: current) slices

/-- ExpressionParser::split_by_commas: split a token list at commas that
occur at the top bracket depth; a trailing empty slice is dropped. -/
def splitByCommas (tokens : List Token) : Except CompilerError (List (List Token)) :=
  splitByCommasGo tokens [] [] []

/-- Step of ExpressionParser::split. -/
def splitGo : List Token → List BracketKind → List Token → List RawExpressionAtom →
    Except CompilerError (List RawExpressionAtom)
  | [], _, current, atoms => .ok ((RawExpressionAtom.subexpression current.reverse :: atoms)).reverse
  | token :: rest, stack, current, atoms =>
    match bracketKindOf token with
    | some (k, .opening) => splitGo rest (k :: stack) (token :: current) atoms
    | some (k, .closing) =>
      match stack with
      | [] => .error ⟨"Invalid parenthesis structure!"⟩
      | top :: stackRest =>
        if top = k then splitGo rest stackRest (token :: current) atoms
        else .error ⟨"Invalid parenthesis structure!"⟩
    | none =>
      match token, stack with
      | .operator op, [] =>
        if current.isEmpty then splitGo rest [] [] (.operator op :: atoms)
        else splitGo rest [] [] (.operator op :: .subexpression current.reverse :: atoms)
      | _, _ => splitGo rest stack (token :: current) atoms

/-- ExpressionParser::split: cut the token list into raw atoms at operators
occurring at the top bracket depth; the trailing subexpression is pushed
unconditionally, even when empty. -/
def split (tokens : List Token) : Except CompilerError (List RawExpressionAtom) :=
  splitGo tokens [] [] []

/-- Stable insertion keeping precedences descending: an entry goes after
every earlier entry of greater or equal precedence (Vec::sort_by_key on
usize::MAX - precedence is a stable ascending sort). -/
def orderInsert (x : Nat × Int) : List (Nat × Int) → List (Nat × Int)
  | [] => [x]
  | y :: ys => if y.1 < x.1 then x :: y :: ys else y :: orderInsert x ys

/-- Stable sort of the operator order by descending precedence. -/
def sortOperatorOrder (entries : List (Nat × Int)) : List (Nat × Int) :=
  entries.foldl (fun acc x => orderInsert x acc) []

/-- The (precedence, index) pairs of the operator atoms, in atom order. -/
def buildOperatorOrder (atoms : List ExpressionAtom) : List (Nat × Int) :=
  sortOperatorOrder ((atoms.enum.filterMap (fun ai =>
    match ai.2 with
    | .operator op => some (getPrecedence op, (ai.1 : Int))
    | _ => none)))

/-- Slot read at a possibly wrapped index: negative (or out-of-range)
indices are Rust panics. -/
def atomGet (atoms : List (Option ExpressionAtom)) (j : Int) : Option (Option ExpressionAtom) :=
  if j < 0 then none else List.get? atoms j.toNat

/-- Slot write; only reached after a successful atomGet. -/
def atomSet (atoms : List (Option ExpressionAtom)) (j : Int) (x : Option ExpressionAtom) :
    List (Option ExpressionAtom) :=
  if j < 0 then atoms else atoms.set j.toNat x

/-- The operator folding loop of ExpressionParser::parse.  Each entry of
the precedence-ordered worklist takes its slot; a missing or non-operator
slot is the "Missing operator!" error.  A unary Not takes its right
neighbour and splices the folded node at the range given by the LOOP
COUNTER i (the source uses i, not the atom index), adjusting later entries
that lie beyond i down by 2 although only one slot was removed; a binary
operator at index 0 is the binary-at-start error, otherwise it takes both
neighbours, resolves, splices at the atom index and adjusts later entries
down by 2.  Failed neighbour takes are skipped silently (their slots stay
taken).  When the worklist is done, the first slot must hold a
subexpression; anything else is a panic (unwrap / unwrap_subexpression).
The leading Nat only makes the recursion structural; the caller passes one
more than the worklist length, so the fuelOut branch is unreachable. -/
def foldAtoms : Nat → List (Option ExpressionAtom) → List (Nat × Int) → Nat → PRes Expr
  | 0, _, _, _ => .fuelOut
  | _ + 1, atoms, [], _ =>
    match atoms.head? with
    | some (some (.subexpression e)) => .ok e
    | _ => .panic
  | fuel + 1, atoms, (_, j) :: rest, i =>
    match atomGet atoms j with
    | none => .panic
    | some slot =>
      let atoms1 := atomSet atoms j none
      match slot with
      | none => .cerr ⟨"Missing operator!"⟩
      | some (.subexpression _) => .cerr ⟨"Missing operator!"⟩
      | some (.operator op) =>
        if op = .opNot then
          match atomGet atoms1 (j + 1) with
          | none => .panic
          | some slot2 =>
            let atoms2 := atomSet atoms1 (j + 1) none
            match slot2 with
            | some (.subexpression sub) =>
              if atoms2.length < i + 2 then .panic
              else
                foldAtoms fuel
                  (atoms2.take i ++ [some (.subexpression (.not sub))] ++ atoms2.drop (i + 2))
                  (rest.map (fun pj => if (i : Int) < pj.2 then (pj.1, pj.2 - 2) else pj))
                  (i + 1)
            | _ => foldAtoms fuel atoms2 rest (i + 1)
        else
          if j = 0 then .cerr ⟨"Expressions may not start with a binary operator!"⟩
          else
            match atomGet atoms1 (j - 1) with
            | none => .panic
            | some lhsSlot =>
              let atoms2 := atomSet atoms1 (j - 1) none
              match atomGet atoms2 (j + 1) with
              | none => .panic
              | some rhsSlot =>
                let atoms3 := atomSet atoms2 (j + 1) none
                match lhsSlot, rhsSlot with
                | some (.subexpression lhs), some (.subexpression rhs) =>
                  match resolveBinaryOperator op lhs rhs with
                  | .error e => .cerr e
                  | .ok folded =>
                    foldAtoms fuel
                      (atoms3.take (j - 1).toNat ++ [some (.subexpression folded)] ++
                        atoms3.drop (j + 2).toNat)
                      (rest.map (fun pj => if j < pj.2 then (pj.1, pj.2 - 2) else pj))
                      (i + 1)
                | _, _ => foldAtoms fuel atoms3 rest (i + 1)

mutual

/-- ExpressionParser::parse: atomize, order the operators by precedence
(descending, stable) and fold them. -/
def parseExpression : Nat → List Token → PRes Expr
  | 0, _ => .fuelOut
  | fuel + 1, tokens =>
    match split tokens with
    | .error e => .cerr e
    | .ok rawAtoms =>
      match parseRawAtoms fuel rawAtoms with
      | .cerr e => .cerr e
      | .panic => .panic
      | .fuelOut => .fuelOut
      | .ok atoms =>
        let order := buildOperatorOrder atoms
        foldAtoms (order.length + 1) (atoms.map some) order 0

/-- Parse every raw atom (ExpressionParser::atomize). -/
def parseRawAtoms : Nat → List RawExpressionAtom → PRes (List ExpressionAtom)
  | 0, _ => .fuelOut
  | _ + 1, [] => .ok []
  | fuel + 1, atom :: rest =>
    match parseRawAtom fuel atom with
    | .cerr e => .cerr e
    | .panic => .panic
    | .fuelOut => .fuelOut
    | .ok a =>
      match parseRawAtoms fuel rest with
      | .cerr e => .cerr e
      | .panic => .panic
      | .fuelOut => .fuelOut
      | .ok as1 => .ok (a :: as1)

/-- ExpressionParser::parse_raw_atom.  Error messages that interpolate
Debug dumps of tokens are abbreviated. -/
def parseRawAtom : Nat → RawExpressionAtom → PRes ExpressionAtom
  | 0, _ => .fuelOut
  | fuel + 1, atom =>
    match atom with
    | .operator op => .ok (.operator op)
    | .subexpression tokens =>
      match tokens with
      | [] => .cerr ⟨"Found empty subexpression atom!"⟩
      | [t] =>
        match t with
        | .literal lit =>
          match valueTryFromLiteral lit with
          | .error e => .cerr e
          | .ok v => .ok (.subexpression (.lit v))
        | .identifier name => .ok (.subexpression (.variable [.identifier name]))
        | _ => .cerr ⟨"Unexpected token. Expected literal or identifier!"⟩
      | first :: afterFirst =>
        match first with
        | .punctuation (.parenthesis .opening) =>
          match takeUntilClosing afterFirst (.punctuation (.parenthesis .closing)) with
          | none => .panic
          | some (.error e) => .cerr e
          | some (.ok (sub, restTokens)) =>
            if restTokens.isEmpty then
              match parseExpression fuel sub with
              | .cerr e => .cerr e
              | .panic => .panic
              | .fuelOut => .fuelOut
              | .ok e => .ok (.subexpression e)
            else .cerr ⟨"Unexpected token. Expected operator!"⟩
        | .identifier baseIdent =>
          match afterFirst with
          | .punctuation .doubleColon :: afterSep =>
            match afterSep with
            | .identifier memberIdent :: afterMember =>
              match afterMember with
              | .punctuation (.parenthesis .opening) :: argTokens =>
                match takeUntilClosing argTokens (.punctuation (.parenthesis .closing)) with
                | none => .panic
                | some (.error e) => .cerr e
                | some (.ok (inner, _)) =>
                  match splitByCommas inner with
                  | .error e => .cerr e
                  | .ok argSlices =>
                    match parseArguments fuel argSlices with
                    | .cerr e => .cerr e
                    | .panic => .panic
                    | .fuelOut => .fuelOut
                    | .ok args =>
                      .ok (.subexpression (.procCall ⟨baseIdent, memberIdent⟩ args))
              | .punctuation (.curlyBraces .opening) :: fieldTokens =>
                match takeUntilClosing fieldTokens (.punctuation (.curlyBraces .closing)) with
                | none => .panic
                | some (.error e) => .cerr e
                | some (.ok (inner, _)) =>
                  match splitByCommas inner with
                  | .error e => .cerr e
                  | .ok fieldSlices =>
                    match parseFieldOverrides fuel fieldSlices with
                    | .cerr e => .cerr e
                    | .panic => .panic
                    | .fuelOut => .fuelOut
                    | .ok fields =>
                      .ok (.subexpression (.structConstruction ⟨baseIdent, memberIdent⟩ fields))
              | _ => .cerr ⟨"Unexpected token!"⟩
            | _ => .cerr ⟨"Unexpected token. Expected identifier!"⟩
          | _ => parseVariableAddress fuel tokens
        | _ => .cerr ⟨"Unexpected token. Expected identifier!"⟩

/-- Parse each comma-separated argument slice. -/
def parseArguments : Nat → List (List Token) → PRes (List Expr)
  | 0, _ => .fuelOut
  | _ + 1, [] => .ok []
  | fuel + 1, slice :: rest =>
    match parseExpression fuel slice with
    | .cerr e => .cerr e
    | .panic => .panic
    | .fuelOut => .fuelOut
    | .ok e =>
      match parseArguments fuel rest with
      | .cerr e => .cerr e
      | .panic => .panic
      | .fuelOut => .fuelOut
      | .ok es => .ok (e :: es)

/-- Parse each field-override slice of a struct construction:
identifier, colon, expression. -/
def parseFieldOverrides : Nat → List (List Token) → PRes (List (String × Expr))
  | 0, _ => .fuelOut
  | _ + 1, [] => .ok []
  | fuel + 1, slice :: rest =>
    match slice with
    | .identifier fieldIdent :: .punctuation .colon :: exprTokens =>
      match parseExpression fuel exprTokens with
      | .cerr e => .cerr e
      | .panic => .panic
      | .fuelOut => .fuelOut
      | .ok e =>
        match parseFieldOverrides fuel rest with
        | .cerr e => .cerr e
        | .panic => .panic
        | .fuelOut => .fuelOut
        | .ok fields => .ok ((fieldIdent, e) :: fields)
    | _ => .cerr ⟨"Unexpected token. Expected identifier!"⟩

/-- ExpressionParser::parse_variable_address: a chain of identifiers, dots
and bracketed dynamic index expressions. -/
def parseVariableAddress : Nat → List Token → PRes ExpressionAtom
  | 0, _ => .fuelOut
  | fuel + 1, tokens => parseVariableAddressGo fuel tokens []

/-- Loop of parse_variable_address, accumulating addressants in reverse. -/
def parseVariableAddressGo : Nat → List Token → List ScopeAddressant → PRes ExpressionAtom
  | 0, _, _ => .fuelOut
  | _ + 1, [], acc =>
    if acc.isEmpty then .cerr ⟨"Could not resolve variable's address!"⟩
    else .ok (.subexpression (.variable acc.reverse))
  | fuel + 1, token :: rest, acc =>
    match token with
    | .identifier name => parseVariableAddressGo fuel rest (.identifier name :: acc)
    | .punctuation .dot => parseVariableAddressGo fuel rest acc
    | .punctuation (.squareBrackets .opening) =>
      match takeUntilClosing rest (.punctuation (.squareBrackets .closing)) with
      | none => .panic
      | some (.error e) => .cerr e
      | some (.ok (inner, restTokens)) =>
        match parseExpression fuel inner with
        | .cerr e => .cerr e
        | .panic => .panic
        | .fuelOut => .fuelOut
        | .ok e => parseVariableAddressGo fuel restTokens (.dynamicIndex e :: acc)
    | _ => .cerr ⟨"Unexpected token. Expected addressant!"⟩

end

/-!  Scope-escape handlers of the procedure builder (procedures.rs).  Only
their resolve steps are embedded; the claims concern the instructions they
emit and patch.  The none outcome is the Rust panic when the remembered
instruction is not a JumpConditional. -/

/-- IfScopeEscapeHandler::resolve: append one ShrinkStack, then patch the
remembered jump to the new instruction count. -/
def ifScopeEscapeResolve (targetInstruction : Nat) (instructions : List Instr) :
    Option (List Instr) :=
  let instrs1 := instructions ++ [Instr.shrinkStack]
  let nextIc := instrs1.length
  match List.get? instrs1 targetInstruction with
  | some (.jumpConditional c _) =>
    some (instrs1.set targetInstruction (.jumpConditional c nextIc))
  | _ => none

/-- WhileScopeEscapeHandler::resolve: append one ShrinkStack and one
unconditional jump (condition Bool(true)) back to the remembered loop-head
instruction, then patch the loop head to the new instruction count. -/
def whileScopeEscapeResolve (targetInstruction : Nat) (instructions : List Instr) :
    Option (List Instr) :=
  let instrs1 := instructions ++
    [Instr.shrinkStack, Instr.jumpConditional (.lit (.bool true)) targetInstruction]
  let nextIc := instrs1.length
  match List.get? instrs1 targetInstruction with
  | some (.jumpConditional c _) =>
    some (instrs1.set targetInstruction (.jumpConditional c nextIc))
  | _ => none

/-!  Shared list helpers used by several claim proofs. -/

theorem getAppendOfLt {α : Type} (l1 l2 : List α) (n : Nat) (h : n < l1.length) :
    List.get? (l1 ++ l2) n = List.get? l1 n := by
  simp [List.get?_eq_getElem?, List.getElem?_append_left h]

theorem getSetSelf {α : Type} (l : List α) (i : Nat) (a : α) (h : i < l.length) :
    List.get? (l.set i a) i = some a := by
  simp [List.get?_eq_getElem?, List.getElem?_set_self, h]

theorem setAppendOfLt {α : Type} (l1 l2 : List α) (i : Nat) (a : α) (h : i < l1.length) :
    (l1 ++ l2).set i a = l1.set i a ++ l2 := by
  induction l1 generalizing i with
  | nil => simp at h
  | cons x xs ih =>
    cases i with
    | zero => simp
    | succ n =>
      simp only [List.cons_append, List.set]
      rw [show xs.append l2 = xs ++ l2 from rfl, ih n (by simpa using Nat.lt_of_succ_lt_succ h)]

theorem ltLengthOfGetSome {α : Type} {l : List α} {n : Nat} {a : α}
    (h : List.get? l n = some a) : n < l.length := by
  by_contra hn
  rw [List.get?_eq_none.mpr (Nat.le_of_not_lt hn)] at h
  exact Option.noConfusion h

/-!  Claim theorems. -/

/-- C4: the claim states that every token sequence in which a binary
operator atom lacks a left or right neighbouring subexpression atom is
rejected with a CompilerError.  The binary-at-start portion holds (second
conjunct), but on the input a + ! b, whose + atom has the operator atom !
as its right neighbour, the fold panics instead of returning an error: the
unary branch splices at the loop counter instead of the atom index,
removing the still-pending + atom, and then shifts the remaining entry to
slot -1, which the next iteration indexes (usize underflow in a debug
build, a wrapped out-of-range index in release) -- the panic outcome.  The
code contradicts the error-handling design the spec describes, so this
records the failing input for the code bug. -/
theorem parseBinaryMissingNeighbourPanics :
    parseExpression 10 [.identifier "a", .operator .plus, .operator .opNot, .identifier "b"]
      = .panic
    ∧ parseExpression 10 [.operator .plus, .identifier "a"]
      = .cerr ⟨"Expressions may not start with a binary operator!"⟩ :=
  ⟨rfl, rfl⟩

/-- C6: the derived comparison operators are built from greater-than,
equality and logical not: resolve_binary_operator sends a < b to b > a,
a >= b to !(b > a), a <= b to !(a > b) and a != b to !(a == b), for
arbitrary operand expressions; parsing the corresponding two-operand token
sequences produces exactly those trees (and therefore they evaluate as the
claim states). -/
theorem derivedComparisonOperators (lhs rhs : Expr) (a b : String) :
    resolveBinaryOperator .less lhs rhs = .ok (.greaterThan rhs lhs)
    ∧ resolveBinaryOperator .greaterEquals lhs rhs = .ok (.not (.greaterThan rhs lhs))
    ∧ resolveBinaryOperator .lessEquals lhs rhs = .ok (.not (.greaterThan lhs rhs))
    ∧ resolveBinaryOperator .inequality lhs rhs = .ok (.not (.equality lhs rhs))
    ∧ parseExpression 10 [.identifier a, .operator .less, .identifier b]
      = .ok (.greaterThan (.variable [.identifier b]) (.variable [.identifier a]))
    ∧ parseExpression 10 [.identifier a, .operator .greaterEquals, .identifier b]
      = .ok (.not (.greaterThan (.variable [.identifier b]) (.variable [.identifier a])))
    ∧ parseExpression 10 [.identifier a, .operator .lessEquals, .identifier b]
      = .ok (.not (.greaterThan (.variable [.identifier a]) (.variable [.identifier b])))
    ∧ parseExpression 10 [.identifier a, .operator .inequality, .identifier b]
      = .ok (.not (.equality (.variable [.identifier a]) (.variable [.identifier b]))) :=
  ⟨rfl, rfl, rfl, rfl, rfl, rfl, rfl, rfl⟩

/-- C7: resolving a while scope-escape handler emits exactly one
ShrinkStack followed by exactly one unconditional JumpConditional
(condition the literal Bool(true)) whose target is the loop-head jump J,
and patches J's jump target to the instruction count reached after those
two emissions (the original length plus two). -/
theorem whileResolveEmitsShrinkAndBackjump (instrs : List Instr) (t : Nat) (c : Expr)
    (old : Nat) (ht : List.get? instrs t = some (.jumpConditional c old)) :
    whileScopeEscapeResolve t instrs =
      some (instrs.set t (.jumpConditional c (instrs.length + 2)) ++
        [.shrinkStack, .jumpConditional (.lit (.bool true)) t]) := by
  have hlt := ltLengthOfGetSome ht
  simp only [whileScopeEscapeResolve]
  rw [getAppendOfLt _ _ _ hlt, ht]
  show some _ = some _
  rw [setAppendOfLt _ _ _ _ hlt]
  simp

/-- Witness for C7 at a concrete loop-head jump. -/
theorem whileResolveEmitsShrinkAndBackjumpWitness :
    whileScopeEscapeResolve 0 [.jumpConditional (.lit (.bool false)) 99, .growStack] =
      some [.jumpConditional (.lit (.bool false)) 4, .growStack, .shrinkStack,
        .jumpConditional (.lit (.bool true)) 0] :=
  whileResolveEmitsShrinkAndBackjump [.jumpConditional (.lit (.bool false)) 99, .growStack]
    0 (.lit (.bool false)) 99 rfl

/-- C8: for every non-negative i64 n, Arrays::new on Integer(n) returns an
Array of exactly n Nulls, and Arrays::size on that result returns
Integer(n).  The bound n < 2^63 is intrinsic: n is carried in an i64. -/
theorem arraysSizeOfNew (n : Int) (h : Heap) (hn0 : 0 ≤ n) (hn : n < 2 ^ 63) :
    newArrayProcedureCall h [.integer n] = .ok (.array (List.replicate n.toNat .null))
    ∧ arraySizeProcedureCall h [.array (List.replicate n.toNat .null)] = .ok (.integer n) := by
  have husize : usizeOfI64 n = n.toNat := by
    unfold usizeOfI64
    rw [Int.emod_eq_of_lt hn0 (by omega)]
  have hsize : i64OfUsize n.toNat = n := by
    unfold i64OfUsize wrap64
    rw [Int.toNat_of_nonneg hn0, Int.emod_eq_of_lt (by omega) (by omega)]
    omega
  refine ⟨?_, ?_⟩
  · unfold newArrayProcedureCall
    simp [husize]
  · unfold arraySizeProcedureCall
    simp [hsize]

/-- Witness for C8 at n = 3. -/
theorem arraysSizeOfNewWitness :
    newArrayProcedureCall [] [.integer 3] = .ok (.array (List.replicate 3 .null))
    ∧ arraySizeProcedureCall [] [.array (List.replicate 3 .null)] = .ok (.integer 3) :=
  arraysSizeOfNew 3 [] (by decide) (by decide)

/-- C1: reading a binding that holds a Struct with no trailing addressant
moves the struct out of its owning cell: the read returns a Struct owning
the instance in a freshly allocated cell (index h.length), the original
cell is emptied, and on the resulting heap every subsequent read of the
same binding -- bare or through a member -- fails with "Use of moved
value!". -/
theorem structMoveOnBareRead (fuel : Nat) (st : Stack) (h : Heap) (mid name : String)
    (c : Nat) (s : StructObj)
    (hbind : stackGet st name = .ok (.struct c))
    (hcell : List.get? h c = some (.cell (some s))) :
    scopeQueryVariable fuel st h [.identifier name] mid
      = some (.ok (.struct h.length, h.set c (.cell none) ++ [.cell (some s)]))
    ∧ scopeQueryVariable fuel st (h.set c (.cell none) ++ [.cell (some s)])
        [.identifier name] mid = some (.error ⟨"Use of moved value!"⟩)
    ∧ ∀ memberName, scopeQueryVariable fuel st (h.set c (.cell none) ++ [.cell (some s)])
        [.identifier name, .identifier memberName] mid
      = some (.error ⟨"Use of moved value!"⟩) := by
  have hlt := ltLengthOfGetSome hcell
  have hltset : c < (h.set c (.cell none)).length := by simpa using hlt
  have hget : List.get? (h.set c (.cell none) ++ [.cell (some s)]) c = some (.cell none) := by
    rw [getAppendOfLt _ _ _ hltset, getSetSelf _ _ _ hlt]
  refine ⟨?_, ?_, fun memberName => ?_⟩
  · simp only [scopeQueryVariable, hbind, Value.query, hcell]
    simp
  · simp only [scopeQueryVariable, hbind, Value.query, hget]
  · simp only [scopeQueryVariable, hbind, Value.query, hget]

/-- Witness for C1 at a one-binding scope and a one-cell heap. -/
theorem structMoveOnBareReadWitness :
    scopeQueryVariable 1 [[("x", .struct 0)]] [.cell (some ⟨⟨"M", "S"⟩, []⟩)]
        [.identifier "x"] "M"
      = some (.ok (.struct 1, [.cell none, .cell (some ⟨⟨"M", "S"⟩, []⟩)]))
    ∧ scopeQueryVariable 1 [[("x", .struct 0)]] [.cell none, .cell (some ⟨⟨"M", "S"⟩, []⟩)]
        [.identifier "x"] "M" = some (.error ⟨"Use of moved value!"⟩)
    ∧ scopeQueryVariable 1 [[("x", .struct 0)]] [.cell none, .cell (some ⟨⟨"M", "S"⟩, []⟩)]
        [.identifier "x", .identifier "f"] "M" = some (.error ⟨"Use of moved value!"⟩) := by
  have hmain := structMoveOnBareRead 1 [[("x", .struct 0)]] [.cell (some ⟨⟨"M", "S"⟩, []⟩)]
    "M" "x" 0 ⟨⟨"M", "S"⟩, []⟩ rfl rfl
  exact ⟨hmain.1, hmain.2.1, hmain.2.2 "f"⟩

/-- C9: DivideExpression and ModuloExpression dispatch on type tags only;
with two Integer operands the quotient (truncated division) and the
Euclidean remainder are computed without a divisor guard, so a zero divisor
is a panic of the interpreter process (outcome none), never a reported
RuntimeError, while any nonzero, non-overflowing divisor yields the
unguarded result. -/
theorem divideModuloUnguarded (fuel : Nat) (env : Environment) (h h1 h2 : Heap)
    (a b : Expr) (l r : Int)
    (ha : evalExpr fuel env h a = some (.ok (.integer l, h1)))
    (hb : evalExpr fuel env h1 b = some (.ok (.integer r, h2))) :
    (r = 0 →
      evalExpr (fuel + 1) env h (.divide a b) = none
      ∧ evalExpr (fuel + 1) env h (.modulo a b) = none)
    ∧ (r ≠ 0 → ¬(l = i64Min ∧ r = -1) →
      evalExpr (fuel + 1) env h (.divide a b) = some (.ok (.integer (Int.tdiv l r), h2))
      ∧ evalExpr (fuel + 1) env h (.modulo a b) = some (.ok (.integer (Int.emod l r), h2))) := by
  constructor
  · intro hr
    constructor <;> (simp only [evalExpr, ha, hb]; rw [if_pos (Or.inl hr)])
  · intro hr hov
    constructor <;>
      (simp only [evalExpr, ha, hb]; rw [if_neg (by rintro (h0 | h0); exact hr h0; exact hov h0)])

/-- Witness for C9: 5 / 0 and 5 % 0 panic; 7 / 2 and -7 % 2 compute. -/
theorem divideModuloUnguardedWitness :
    (evalExpr 3 ⟨"M", [], stackNew⟩ [] (.divide (.lit (.integer 5)) (.lit (.integer 0))) = none
      ∧ evalExpr 3 ⟨"M", [], stackNew⟩ [] (.modulo (.lit (.integer 5)) (.lit (.integer 0))) = none)
    ∧ (evalExpr 3 ⟨"M", [], stackNew⟩ [] (.divide (.lit (.integer 7)) (.lit (.integer 2)))
        = some (.ok (.integer (Int.tdiv 7 2), []))
      ∧ evalExpr 3 ⟨"M", [], stackNew⟩ [] (.modulo (.lit (.integer (-7))) (.lit (.integer 2)))
        = some (.ok (.integer (Int.emod (-7) 2), []))) := by
  refine ⟨(divideModuloUnguarded 2 ⟨"M", [], stackNew⟩ [] [] [] (.lit (.integer 5))
    (.lit (.integer 0)) 5 0 rfl rfl).1 rfl, ?_, ?_⟩
  · exact ((divideModuloUnguarded 2 ⟨"M", [], stackNew⟩ [] [] [] (.lit (.integer 7))
      (.lit (.integer 2)) 7 2 rfl rfl).2 (by decide) (by decide)).1
  · exact ((divideModuloUnguarded 2 ⟨"M", [], stackNew⟩ [] [] [] (.lit (.integer (-7)))
      (.lit (.integer 2)) (-7) 2 rfl rfl).2 (by decide) (by decide)).2

/-- C10: CompiledProcedure::call performs no arity check.  A surplus
argument value is silently discarded (the one-parameter procedure returns
its parameter and ignores the extra value); a missing argument leaves the
parameter unbound, so a later read fails with the variable-not-found
runtime error rather than an arity error; and a call with any argument
count at all still enters the instruction loop (an empty body returns Null
whatever the arity mismatch). -/
theorem callZipsArgumentsWithoutArityCheck (n : Int) (w : Value) (mid : String)
    (mods : List (String × Module)) (h : Heap) (fuel : Nat) :
    callBody (fuel + 5) (.compiled ["x"] [.ret (.variable [.identifier "x"])])
        ⟨mid, mods, stackNew⟩ h [.integer n, w] = some (.ok (.integer n, h))
    ∧ callBody (fuel + 5) (.compiled ["x", "y"] [.ret (.variable [.identifier "y"])])
        ⟨mid, mods, stackNew⟩ h [.integer n]
      = some (.error ⟨"Could not find the variable 'y' in this scope!"⟩)
    ∧ ∀ (ids : List String) (args : List Value),
        callBody (fuel + 2) (.compiled ids []) ⟨mid, mods, stackNew⟩ h args
          = some (.ok (.null, h)) :=
  ⟨rfl, rfl, fun _ _ => rfl⟩

/-- C2: member access through a live Struct or StructRef value checks
visibility against the environment's contained module id.  When the struct
prototype's module id equals it, reads reach any member (the outcome is the
member value's own empty-address query) and writes succeed for public and
private fields alike; when the ids differ, public members behave the same
while a private member fails with "Tried to access a private field!" for
both reads and writes. -/
theorem memberVisibilityCheck (fuel : Nat) (h : Heap) (c : Nat) (obj : StructObj)
    (m mid : String) (memb : Member) (sv : Value)
    (hsv : sv = .struct c ∨ sv = .structRef c)
    (hcell : List.get? h c = some (.cell (some obj)))
    (hmemb : assocGet m obj.members = some memb) :
    (∀ r, obj.structId.moduleId = mid →
      Value.query fuel h memb.value [] mid = some (.ok r) →
      Value.query fuel h sv [.identifier m] mid = some (.ok r))
    ∧ (∀ r, obj.structId.moduleId ≠ mid → memb.isPublic = true →
      Value.query fuel h memb.value [] mid = some (.ok r) →
      Value.query fuel h sv [.identifier m] mid = some (.ok r))
    ∧ (obj.structId.moduleId ≠ mid → memb.isPublic = false →
      Value.query fuel h sv [.identifier m] mid
        = some (.error ⟨"Tried to access a private field!"⟩))
    ∧ (∀ w, obj.structId.moduleId = mid →
      Value.set h sv [.identifier m] mid w
        = some (.ok (sv, h.set c (.cell (some ⟨obj.structId, memberUpdate m w obj.members⟩)))))
    ∧ (∀ w, obj.structId.moduleId ≠ mid → memb.isPublic = true →
      Value.set h sv [.identifier m] mid w
        = some (.ok (sv, h.set c (.cell (some ⟨obj.structId, memberUpdate m w obj.members⟩)))))
    ∧ (∀ w, obj.structId.moduleId ≠ mid → memb.isPublic = false →
      Value.set h sv [.identifier m] mid w
        = some (.error ⟨"Tried to access a private field!"⟩)) := by
  have hget : getMember obj.members m = .ok memb.value := by
    simp [getMember, hmemb]
  refine ⟨fun r hmod hq => ?_, fun r hmod hpub hq => ?_, fun hmod hpriv => ?_,
    fun w hmod => ?_, fun w hmod hpub => ?_, fun w hmod hpriv => ?_⟩ <;>
    rcases hsv with rfl | rfl
  · simp only [Value.query, hcell]; rw [if_pos hmod, hget]; exact hq
  · simp only [Value.query, hcell]; rw [if_pos hmod, hget]; exact hq
  · have hpubget : getPublicMember obj.members m = .ok memb.value := by
      simp [getPublicMember, hmemb, hpub]
    simp only [Value.query, hcell]; rw [if_neg hmod, hpubget]; exact hq
  · have hpubget : getPublicMember obj.members m = .ok memb.value := by
      simp [getPublicMember, hmemb, hpub]
    simp only [Value.query, hcell]; rw [if_neg hmod, hpubget]; exact hq
  · have hprivget : getPublicMember obj.members m
        = .error ⟨"Tried to access a private field!"⟩ := by
      simp [getPublicMember, hmemb, hpriv]
    simp only [Value.query, hcell]; rw [if_neg hmod, hprivget]
  · have hprivget : getPublicMember obj.members m
        = .error ⟨"Tried to access a private field!"⟩ := by
      simp [getPublicMember, hmemb, hpriv]
    simp only [Value.query, hcell]; rw [if_neg hmod, hprivget]
  · simp only [Value.set, hcell]; rw [if_pos hmod, hmemb]
  · simp only [Value.set, hcell]; rw [if_pos hmod, hmemb]
  · simp only [Value.set, hcell]; rw [if_neg hmod, hmemb]; simp [hpub]
  · simp only [Value.set, hcell]; rw [if_neg hmod, hmemb]; simp [hpub]
  · simp only [Value.set, hcell]; rw [if_neg hmod, hmemb]; simp [hpriv]
  · simp only [Value.set, hcell]; rw [if_neg hmod, hmemb]; simp [hpriv]

/-- Witness for C2: a private member read and write from the owning module
succeed, and from another module fail, on a concrete two-member struct. -/
theorem memberVisibilityCheckWitness :
    Value.query 2 [.cell (some ⟨⟨"M", "S"⟩, [("f", ⟨false, .integer 9⟩)]⟩)] (.struct 0)
        [.identifier "f"] "M"
      = some (.ok (.integer 9, [.cell (some ⟨⟨"M", "S"⟩, [("f", ⟨false, .integer 9⟩)]⟩)]))
    ∧ Value.query 2 [.cell (some ⟨⟨"M", "S"⟩, [("f", ⟨false, .integer 9⟩)]⟩)] (.struct 0)
        [.identifier "f"] "Other" = some (.error ⟨"Tried to access a private field!"⟩)
    ∧ Value.set [.cell (some ⟨⟨"M", "S"⟩, [("f", ⟨false, .integer 9⟩)]⟩)] (.struct 0)
        [.identifier "f"] "M" (.integer 1)
      = some (.ok (.struct 0, [.cell (some ⟨⟨"M", "S"⟩, [("f", ⟨false, .integer 1⟩)]⟩)]))
    ∧ Value.set [.cell (some ⟨⟨"M", "S"⟩, [("f", ⟨false, .integer 9⟩)]⟩)] (.structRef 0)
        [.identifier "f"] "Other" (.integer 1)
      = some (.error ⟨"Tried to access a private field!"⟩) := by
  have hS := memberVisibilityCheck 2 [.cell (some ⟨⟨"M", "S"⟩, [("f", ⟨false, .integer 9⟩)]⟩)]
    0 ⟨⟨"M", "S"⟩, [("f", ⟨false, .integer 9⟩)]⟩ "f" "M" ⟨false, .integer 9⟩ (.struct 0)
    (Or.inl rfl) rfl rfl
  have hO := memberVisibilityCheck 2 [.cell (some ⟨⟨"M", "S"⟩, [("f", ⟨false, .integer 9⟩)]⟩)]
    0 ⟨⟨"M", "S"⟩, [("f", ⟨false, .integer 9⟩)]⟩ "f" "Other" ⟨false, .integer 9⟩ (.struct 0)
    (Or.inl rfl) rfl rfl
  have hR := memberVisibilityCheck 2 [.cell (some ⟨⟨"M", "S"⟩, [("f", ⟨false, .integer 9⟩)]⟩)]
    0 ⟨⟨"M", "S"⟩, [("f", ⟨false, .integer 9⟩)]⟩ "f" "Other" ⟨false, .integer 9⟩ (.structRef 0)
    (Or.inr rfl) rfl rfl
  exact ⟨hS.1 _ rfl rfl, hO.2.2.1 (by decide) rfl, hS.2.2.2.1 (.integer 1) rfl,
    hR.2.2.2.2.2 (.integer 1) (by decide) rfl⟩

/-- C3: in the instruction loop, JumpConditional evaluates its condition:
Bool(true) sets the program counter to the jump target without the usual
increment, Bool(false) falls through to the next instruction, any other
value type fails with the Expected-Bool runtime error; and when the loop
reaches the end of the instruction list without executing a Return it
returns Null. -/
theorem jumpConditionalAndFallOffEnd (fuel : Nat) (instrs : List Instr) (pc : Nat)
    (env : Environment) (h : Heap) (cond : Expr) (target : Nat)
    (hpc : List.get? instrs pc = some (.jumpConditional cond target)) :
    (∀ h1, evalExpr fuel env h cond = some (.ok (.bool true, h1)) →
      runInstrs (fuel + 1) instrs pc env h = runInstrs fuel instrs target env h1)
    ∧ (∀ h1, evalExpr fuel env h cond = some (.ok (.bool false, h1)) →
      runInstrs (fuel + 1) instrs pc env h = runInstrs fuel instrs (pc + 1) env h1)
    ∧ (∀ v h1, evalExpr fuel env h cond = some (.ok (v, h1)) → (∀ b, v ≠ .bool b) →
      runInstrs (fuel + 1) instrs pc env h
        = some (.error ⟨s!"Expected Bool, found {v.getTypeId h1}!"⟩))
    ∧ (∀ (fuel2 pc2 : Nat) (env2 : Environment) (h2 : Heap), instrs.length ≤ pc2 →
      runInstrs (fuel2 + 1) instrs pc2 env2 h2 = some (.ok (.null, h2))) := by
  refine ⟨fun h1 he => ?_, fun h1 he => ?_, fun v h1 he hv => ?_,
    fun fuel2 pc2 env2 h2 hle => ?_⟩
  · simp only [runInstrs, hpc, he]
  · simp only [runInstrs, hpc, he]
  · simp only [runInstrs, hpc, he]
    cases v with
    | bool b => exact absurd rfl (hv b)
    | _ => rfl
  · simp only [runInstrs, List.get?_eq_none.mpr hle]

/-- Witness for C3 on one-instruction programs and an off-the-end counter. -/
theorem jumpConditionalAndFallOffEndWitness :
    runInstrs 3 [.jumpConditional (.lit (.bool true)) 5] 0 ⟨"M", [], stackNew⟩ []
      = runInstrs 2 [.jumpConditional (.lit (.bool true)) 5] 5 ⟨"M", [], stackNew⟩ []
    ∧ runInstrs 3 [.jumpConditional (.lit (.bool false)) 0] 0 ⟨"M", [], stackNew⟩ []
      = runInstrs 2 [.jumpConditional (.lit (.bool false)) 0] 1 ⟨"M", [], stackNew⟩ []
    ∧ runInstrs 3 [.jumpConditional (.lit (.integer 1)) 0] 0 ⟨"M", [], stackNew⟩ []
      = some (.error ⟨s!"Expected Bool, found {Value.getTypeId [] (.integer 1)}!"⟩)
    ∧ runInstrs 1 [.jumpConditional (.lit (.bool true)) 5] 7 ⟨"M", [], stackNew⟩ []
      = some (.ok (.null, [])) := by
  refine ⟨(jumpConditionalAndFallOffEnd 2 [.jumpConditional (.lit (.bool true)) 5] 0
      ⟨"M", [], stackNew⟩ [] (.lit (.bool true)) 5 rfl).1 [] rfl, ?_, ?_, ?_⟩
  · exact (jumpConditionalAndFallOffEnd 2 [.jumpConditional (.lit (.bool false)) 0] 0
      ⟨"M", [], stackNew⟩ [] (.lit (.bool false)) 0 rfl).2.1 [] rfl
  · exact (jumpConditionalAndFallOffEnd 2 [.jumpConditional (.lit (.integer 1)) 0] 0
      ⟨"M", [], stackNew⟩ [] (.lit (.integer 1)) 0 rfl).2.2.1 (.integer 1) [] rfl
      (fun b hb => Value.noConfusion hb)
  · exact (jumpConditionalAndFallOffEnd 2 [.jumpConditional (.lit (.bool true)) 5] 0
      ⟨"M", [], stackNew⟩ [] (.lit (.bool true)) 5 rfl).2.2.2 0 7 ⟨"M", [], stackNew⟩ []
      (by decide)

/-- C5 counterexample: two StructRef values observing DISTINCT cells whose
contents are structurally equal compare equal, refuting the claim that
StructRef equality holds exactly when both observe the same owning cell
(the Rust comparison upgrades both weak handles and compares the cell
contents through Rc and RefCell). -/
theorem structRefEqualityIgnoresIdentity :
    valueEqF 5 [.cell (some ⟨⟨"M", "S"⟩, []⟩), .cell (some ⟨⟨"M", "S"⟩, []⟩)]
      (.structRef 0) (.structRef 1) = some true
    ∧ (0 : Nat) ≠ 1 :=
  ⟨rfl, by decide⟩

/-- C5 amended: Value equality is structural for the non-float scalars and
for arrays (length first, then elementwise), structural through the cell
for Struct values, and for StructRef values it is decided by the upgraded
targets rather than by cell identity: two live references compare by the
structural equality of the observed cell contents (the very comparison the
Struct case performs), two dangling references compare equal, and a live
and a dangling reference compare unequal. -/
theorem valueEqualityCharacterization (fuel : Nat) (h : Heap) :
    (∀ a b : Int, valueEqF (fuel + 1) h (.integer a) (.integer b) = some (decide (a = b)))
    ∧ (∀ a b : String, valueEqF (fuel + 1) h (.str a) (.str b) = some (decide (a = b)))
    ∧ (∀ a b : Char, valueEqF (fuel + 1) h (.char a) (.char b) = some (decide (a = b)))
    ∧ (∀ a b : Bool, valueEqF (fuel + 1) h (.bool a) (.bool b) = some (decide (a = b)))
    ∧ valueEqF (fuel + 1) h .null .null = some true
    ∧ (∀ xs ys : List Value,
        valueEqF (fuel + 1) h (.array xs) (.array ys) = valueListEqF fuel h xs ys)
    ∧ (∀ xs ys : List Value, xs.length ≠ ys.length →
        valueListEqF (fuel + 1) h xs ys = some false)
    ∧ (∀ c d o1 o2, List.get? h c = some (.cell o1) → List.get? h d = some (.cell o2) →
        valueEqF (fuel + 1) h (.struct c) (.struct d) = optObjEqF fuel h o1 o2
        ∧ valueEqF (fuel + 1) h (.structRef c) (.structRef d) = optObjEqF fuel h o1 o2)
    ∧ (∀ c d, List.get? h c = some .dropped → List.get? h d = some .dropped →
        valueEqF (fuel + 1) h (.structRef c) (.structRef d) = some true)
    ∧ (∀ c d o1, List.get? h c = some (.cell o1) → List.get? h d = some .dropped →
        valueEqF (fuel + 1) h (.structRef c) (.structRef d) = some false) := by
  refine ⟨fun a b => rfl, fun a b => rfl, fun a b => rfl, fun a b => rfl, rfl,
    fun xs ys => rfl, fun xs ys hne => ?_, fun c d o1 o2 hc hd => ?_,
    fun c d hc hd => ?_, fun c d o1 hc hd => ?_⟩
  · cases xs <;> cases ys <;> simp only [valueListEqF] <;> simp_all
  · constructor <;> simp only [valueEqF, Heap.upgrade, hc, hd]
  · simp only [valueEqF, Heap.upgrade, hc, hd]
  · simp only [valueEqF, Heap.upgrade, hc, hd]

/-- Witness for C5 at a two-cell heap: the Struct comparison and the
StructRef comparison across the two distinct cells reduce to the same
content comparison. -/
theorem valueEqualityCharacterizationWitness :
    valueEqF 5 [.cell (some ⟨⟨"M", "S"⟩, []⟩), .cell (some ⟨⟨"M", "S"⟩, []⟩)]
        (.struct 0) (.struct 1)
      = optObjEqF 4 [.cell (some ⟨⟨"M", "S"⟩, []⟩), .cell (some ⟨⟨"M", "S"⟩, []⟩)]
          (some ⟨⟨"M", "S"⟩, []⟩) (some ⟨⟨"M", "S"⟩, []⟩)
    ∧ valueEqF 5 [.cell (some ⟨⟨"M", "S"⟩, []⟩), .cell (some ⟨⟨"M", "S"⟩, []⟩)]
        (.structRef 0) (.structRef 1)
      = optObjEqF 4 [.cell (some ⟨⟨"M", "S"⟩, []⟩), .cell (some ⟨⟨"M", "S"⟩, []⟩)]
          (some ⟨⟨"M", "S"⟩, []⟩) (some ⟨⟨"M", "S"⟩, []⟩) :=
  (valueEqualityCharacterization 4
      [.cell (some ⟨⟨"M", "S"⟩, []⟩), .cell (some ⟨⟨"M", "S"⟩, []⟩)]).2.2.2.2.2.2.2.1
    0 1 (some ⟨⟨"M", "S"⟩, []⟩) (some ⟨⟨"M", "S"⟩, []⟩) rfl rfl

end Otr
